import Mathlib

/-!
Shallow embedding of `crates/uv-requirements/src/resolver.rs`: the
`NamedRequirementsResolver`, which infers a package name for each "unnamed"
requirement (one given only by a URL or path) via a fallback chain of
filename parsing, static directory metadata, and a source-distribution
build, and batches these resolutions while preserving input order and
failing fast.

External collaborators of the sampled file (URL views from `pep508_rs`,
the `distribution_filename` parsers, `pypi_types` / `toml` / `configparser`
parsing combined with the filesystem reads, `uv_normalize::PackageName`
validation, and the `uv_distribution` source-distribution builder) live in
other crates of the repository and are modelled as an oracle environment
(`Env`): each field packages one collaborator call exactly as the resolver
consumes it.  The resolver's own control flow — the part under `src/` — is
translated branch for branch.  Each consultation of a filesystem reader or
of the builder is recorded in an event log so that "reader never
consulted" / "build never invoked" properties are statable.
-/

namespace UvRequirements

/-- A validated, normalized package name (`uv_normalize::PackageName`),
modelled by its string form; validation itself is performed by collaborator
constructors (oracle fields of `Env`). -/
abbrev PackageName := String

/-- A locator URL (`pep508_rs::VerbatimUrl`) together with the
collaborator-computed views the resolver consumes:
`raw` is the `Display` form (the literal locator used in error messages and
in the output's version-or-URL field is the URL value itself);
`scheme` is `url.scheme()`;
`pathExtension` is `Path::new(url.path()).extension()`;
`filename` is `url.filename()` with its error collapsed to `none`
(the resolver only ever observes it through `?` or `.ok()`);
`toFilePath` is `url.to_file_path()` with its error collapsed to `none`. -/
structure VerbatimUrl where
  raw : String
  scheme : String
  pathExtension : Option String
  filename : Option String
  toFilePath : Option String
deriving DecidableEq, Repr

/-- `pep508_rs::UnnamedRequirement`: a locator URL, extras, and an opaque
marker expression (extras and marker are never interpreted here). -/
structure UnnamedRequirement where
  url : VerbatimUrl
  extras : List String
  marker : Option String
deriving DecidableEq, Repr

/-- `pep508_rs::VersionOrUrl`. -/
inductive VersionOrUrl where
  | versionSpecifier (specifiers : String)
  | url (u : VerbatimUrl)
deriving DecidableEq, Repr

/-- `pep508_rs::Requirement` (the fields the resolver constructs). -/
structure Requirement where
  name : PackageName
  extras : List String
  version_or_url : Option VersionOrUrl
  marker : Option String
deriving DecidableEq, Repr

/-- `pep508_rs::RequirementsTxtRequirement`: already named (PEP 508) or
unnamed. -/
inductive RequirementsTxtRequirement where
  | pep508 (r : Requirement)
  | unnamed (r : UnnamedRequirement)
deriving DecidableEq, Repr

/-- The fatal errors `resolve_requirement` can return (`anyhow::Error`
values, modelled by constructor):
`filename` — `requirement.url.filename()?` failed in the wheel branch;
`wheel` — `WheelFilename::from_str` failed (payload: the parser's error);
`unsupportedScheme` — the catch-all scheme branch (payload: the literal
locator);
`build` — the builder failed, wrapped by
`.context("Failed to build source distribution")` (payload: the original
cause). -/
inductive ResolveError where
  | filename (locator : String)
  | wheel (cause : String)
  | unsupportedScheme (locator : String)
  | build (cause : String)
deriving DecidableEq, Repr

/-- The `Display` message of the `anyhow::Error`, as produced at each error
site of `resolve_requirement`. -/
def ResolveError.message : ResolveError → String
  | ResolveError.filename locator => locator
  | ResolveError.wheel cause => cause
  | ResolveError.unsupportedScheme locator =>
      "Unsupported scheme for unnamed requirement: " ++ locator
  | ResolveError.build _ => "Failed to build source distribution"

/-- The preserved underlying cause (`anyhow`'s `source` chain): only the
`.context(...)`-wrapped build error and the wheel parse error carry one. -/
def ResolveError.causeOf : ResolveError → Option String
  | ResolveError.wheel cause => some cause
  | ResolveError.build cause => some cause
  | _ => none

/-- Result of one per-requirement resolution: `ok`, a returned error, or a
panic (the `.expect(...)` in the file-scheme branch unwinds instead of
returning `Err`). -/
inductive Outcome (ε α : Type) where
  | ok (value : α)
  | error (e : ε)
  | panicked (msg : String)
deriving DecidableEq, Repr

/-- `Project` table of a parsed `pyproject.toml` (PEP 621): `name` is a
required field. -/
structure Project where
  name : PackageName
deriving DecidableEq, Repr

/-- `[tool.poetry]` table: `name` is optional. -/
structure ToolPoetry where
  name : Option PackageName
deriving DecidableEq, Repr

/-- `[tool]` table. -/
structure Tool where
  poetry : Option ToolPoetry
deriving DecidableEq, Repr

/-- A parsed `pyproject.toml`, mirroring the serde structs at the bottom of
the file: both tables optional. -/
structure PyProjectToml where
  project : Option Project
  tool : Option Tool
deriving DecidableEq, Repr

/-- A parsed INI file as produced by `configparser`'s `Ini::read`:
sections mapped to keys mapped to optional values (a key may be present
with no value). -/
abbrev IniMap := List (String × List (String × Option String))

/-- The supported URL schemes, as matched by `resolve_requirement`. -/
inductive Scheme where
  | file
  | http
  | https
  | gitSsh
  | gitHttps
deriving DecidableEq, Repr

/-- Modelled from the spec: `pep508_rs::Scheme::parse` lives in the
`pep508-rs` crate, not under `src/`.  The spec's scheme set is
{file, http, https, git+ssh, git+https}; every other scheme string reaches
the resolver's catch-all branch, so schemes that the real parser recognizes
but the resolver does not match (and unrecognized schemes alike) are
collapsed to `none` — both land in the same `_ =>` arm. -/
def Scheme.parse (s : String) : Option Scheme :=
  if s = "file" then some Scheme.file
  else if s = "http" then some Scheme.http
  else if s = "https" then some Scheme.https
  else if s = "git+ssh" then some Scheme.gitSsh
  else if s = "git+https" then some Scheme.gitHttps
  else none

/-- `distribution_types::SourceUrl`: the classified source handed to the
builder. -/
inductive SourceUrl where
  | path (url : VerbatimUrl) (p : String)
  | direct (url : VerbatimUrl)
  | git (url : VerbatimUrl)
deriving DecidableEq, Repr

/-- `distribution_types::BuildableSource` (only the `Url` variant is used
here). -/
inductive BuildableSource where
  | url (source : SourceUrl)
deriving DecidableEq, Repr

/-- The metadata returned by the builder
(`download_and_build_metadata`); only `name` is ever consumed by this
resolver. -/
structure Metadata23 where
  name : PackageName
  version : String
  requiresDist : List String
deriving DecidableEq, Repr

/-- Observable collaborator consultations made during one resolution:
the three static directory reads and the builder invocation. -/
inductive Event where
  | readPkgInfo (path : String)
  | readPyProject (path : String)
  | readSetupCfg (path : String)
  | build (source : BuildableSource)
deriving DecidableEq, Repr

/-- Is this event a builder invocation? -/
def Event.isBuild : Event → Bool
  | Event.build _ => true
  | _ => false

/-- The oracle environment: one field per collaborator call made by
`resolve_requirement`.
`wheelFilenameFromStr` — `WheelFilename::from_str` on the filename, giving
the parsed distribution's name or a parse error;
`sourceDistParsedNormalized` —
`SourceDistFilename::parsed_normalized_filename(...).ok()`, giving the
parsed sdist name if the filename follows the convention;
`isDir` — `path.is_dir()`;
`readPkgInfo` — `fs_err::read(path/PKG-INFO).ok()` composed with
`Metadata10::parse_pkg_info(...).ok()`, giving the `Name:` field;
`readPyProject` — `fs_err::read_to_string(path/pyproject.toml).ok()`
composed with `toml::from_str::<PyProjectToml>(...).ok()`;
`readSetupCfg` — `fs_err::read_to_string(path/setup.cfg).ok()` composed
with reading into a case-sensitive (`Ini::new_cs`), multiline-enabled
(`set_multiline(true)`) INI, `.ok()`;
`packageNameFromStr` — `PackageName::from_str(...).ok()` (grammar
validation);
`downloadAndBuildMetadata` — the builder's
`download_and_build_metadata`. -/
structure Env where
  wheelFilenameFromStr : String → Except String PackageName
  sourceDistParsedNormalized : String → Option PackageName
  isDir : String → Bool
  readPkgInfo : String → Option PackageName
  readPyProject : String → Option PyProjectToml
  readSetupCfg : String → Option IniMap
  packageNameFromStr : String → Option PackageName
  downloadAndBuildMetadata : BuildableSource → Except String Metadata23

/-- `a.eq_ignore_ascii_case(b)`: ASCII-case-insensitive string equality
(Lean's core `Char.toLower` lowers exactly the ASCII uppercase range). -/
def eqIgnoreAsciiCase (a b : String) : Bool :=
  a.data.map Char.toLower == b.data.map Char.toLower

/-- The name a parsed `pyproject.toml` yields: the `project` table's
required `name` if that table is present, else `tool.poetry.name` if every
layer of that nesting is present, else nothing (lines 152–184 of the
source: the two `if let` chains inside the pyproject branch). -/
def pyprojectName (pyproject : PyProjectToml) : Option PackageName :=
  match pyproject.project with
  | some project => some project.name
  | none =>
    match pyproject.tool with
    | some tool =>
      match tool.poetry with
      | some poetry =>
        match poetry.name with
        | some name => some name
        | none => none
      | none => none
    | none => none

/-- The name a parsed `setup.cfg` yields: section `metadata`, key `name`,
present with a value that passes `PackageName::from_str` (lines 195–211). -/
def setupCfgName (env : Env) (setup_cfg : IniMap) : Option PackageName :=
  match List.lookup "metadata" setup_cfg with
  | some metadataSection =>
    match List.lookup "name" metadataSection with
    | some (some name) =>
      match env.packageNameFromStr name with
      | some name => some name
      | none => none
    | _ => none
  | none => none

/-- The static-metadata chain over a directory (lines 128–212): try
`PKG-INFO`, then `pyproject.toml`, then `setup.cfg`; the first success
wins and later readers are not consulted.  Returns the name found, if any,
together with the reads performed, in order. -/
def readDirectoryMetadata (env : Env) (path : String) :
    Option PackageName × List Event :=
  match env.readPkgInfo path with
  | some name => (some name, [Event.readPkgInfo path])
  | none =>
    let pyprojectResult : Option PackageName :=
      match env.readPyProject path with
      | some pyproject => pyprojectName pyproject
      | none => none
    match pyprojectResult with
    | some name => (some name, [Event.readPkgInfo path, Event.readPyProject path])
    | none =>
      let setupCfgResult : Option PackageName :=
        match env.readSetupCfg path with
        | some setup_cfg => setupCfgName env setup_cfg
        | none => none
      (setupCfgResult,
        [Event.readPkgInfo path, Event.readPyProject path, Event.readSetupCfg path])

/-- The build fallback (lines 234–252): invoke the builder on the
classified source; on failure wrap with the build context message, on
success take only the metadata's name. -/
def buildFallback (env : Env) (requirement : UnnamedRequirement)
    (source : SourceUrl) (events : List Event) :
    Outcome ResolveError Requirement × List Event :=
  match env.downloadAndBuildMetadata (BuildableSource.url source) with
  | Except.error e =>
      (Outcome.error (ResolveError.build e),
        events ++ [Event.build (BuildableSource.url source)])
  | Except.ok metadata =>
      (Outcome.ok
        { name := metadata.name
          extras := requirement.extras
          version_or_url := some (VersionOrUrl.url requirement.url)
          marker := requirement.marker },
        events ++ [Event.build (BuildableSource.url source)])

/-- Lines 119–252 of `resolve_requirement`: classify the scheme; for
`file`, convert to a path (panicking on failure, as `.expect` does), read
static metadata when the path is a directory, and otherwise (or when no
static reader produced a name) fall back to the build. -/
def resolveFromSource (env : Env) (requirement : UnnamedRequirement) :
    Outcome ResolveError Requirement × List Event :=
  match Scheme.parse requirement.url.scheme with
  | some Scheme.file =>
    match requirement.url.toFilePath with
    | none => (Outcome.panicked "URL to be a file path", [])
    | some path =>
      if env.isDir path then
        match readDirectoryMetadata env path with
        | (some name, events) =>
            (Outcome.ok
              { name := name
                extras := requirement.extras
                version_or_url := some (VersionOrUrl.url requirement.url)
                marker := requirement.marker },
              events)
        | (none, events) =>
            buildFallback env requirement (SourceUrl.path requirement.url path) events
      else
        buildFallback env requirement (SourceUrl.path requirement.url path) []
  | some Scheme.http | some Scheme.https =>
      buildFallback env requirement (SourceUrl.direct requirement.url) []
  | some Scheme.gitSsh | some Scheme.gitHttps =>
      buildFallback env requirement (SourceUrl.git requirement.url) []
  | none =>
      (Outcome.error (ResolveError.unsupportedScheme requirement.url.raw), [])

/-- `NamedRequirementsResolver::resolve_requirement` (lines 79–252): the
wheel-filename branch (fatal on a missing filename or a failed parse), the
sdist-filename branch (silent on failure), then scheme classification and
the rest via `resolveFromSource`. -/
def resolveRequirement (env : Env) (requirement : UnnamedRequirement) :
    Outcome ResolveError Requirement × List Event :=
  if requirement.url.pathExtension.any (fun ext => eqIgnoreAsciiCase ext "whl") then
    match requirement.url.filename with
    | none => (Outcome.error (ResolveError.filename requirement.url.raw), [])
    | some fname =>
      match env.wheelFilenameFromStr fname with
      | Except.error e => (Outcome.error (ResolveError.wheel e), [])
      | Except.ok name =>
          (Outcome.ok
            { name := name
              extras := requirement.extras
              version_or_url := some (VersionOrUrl.url requirement.url)
              marker := requirement.marker },
            [])
  else
    match requirement.url.filename.bind env.sourceDistParsedNormalized with
    | some name =>
        (Outcome.ok
          { name := name
            extras := requirement.extras
            version_or_url := some (VersionOrUrl.url requirement.url)
            marker := requirement.marker },
          [])
    | none => resolveFromSource env requirement

/-- The per-item closure of `resolve` (lines 60–71): a PEP 508 requirement
passes through as `Ok`, an unnamed one goes to `resolve_requirement`. -/
def resolveOne (env : Env) (requirement : RequirementsTxtRequirement) :
    Outcome ResolveError Requirement × List Event :=
  match requirement with
  | RequirementsTxtRequirement.pep508 r => (Outcome.ok r, [])
  | RequirementsTxtRequirement.unnamed r => resolveRequirement env r

/-- `NamedRequirementsResolver::resolve` (lines 53–76): the functional
denotation of `stream::iter(..).map(..).buffered(50).try_collect()` —
results are yielded in submission order and the first error (in that
order) aborts the batch with no partial list. -/
def resolve (env : Env) :
    List RequirementsTxtRequirement →
      Outcome ResolveError (List Requirement) × List Event
  | [] => (Outcome.ok [], [])
  | requirement :: rest =>
    match resolveOne env requirement with
    | (Outcome.ok r, events) =>
      match resolve env rest with
      | (Outcome.ok rs, more) => (Outcome.ok (r :: rs), events ++ more)
      | (Outcome.error e, more) => (Outcome.error e, events ++ more)
      | (Outcome.panicked m, more) => (Outcome.panicked m, events ++ more)
    | (Outcome.error e, events) => (Outcome.error e, events)
    | (Outcome.panicked m, events) => (Outcome.panicked m, events)



/-! ## Concrete fixtures

A small family of closed environments and locators used to evaluate the
resolver on concrete inputs. -/

/-- An environment describing a small world: the wheel parser accepts
exactly `anyio-4.3.0-py3-none-any.whl`, the sdist parser accepts exactly
`anyio-4.3.0.tar.gz`, `/work/project` is a directory holding a `PKG-INFO`
with name `foo` and a `pyproject.toml` with `project.name = bar`, the name
grammar accepts `qux`, and the builder succeeds with name `built-dist`. -/
def envStd : Env where
  wheelFilenameFromStr := fun f =>
    if f = "anyio-4.3.0-py3-none-any.whl" then Except.ok "anyio"
    else Except.error "expected a wheel filename"
  sourceDistParsedNormalized := fun f =>
    if f = "anyio-4.3.0.tar.gz" then some "anyio" else none
  isDir := fun p => p = "/work/project"
  readPkgInfo := fun p => if p = "/work/project" then some "foo" else none
  readPyProject := fun p =>
    if p = "/work/project" then
      some { project := some { name := "bar" }, tool := none }
    else none
  readSetupCfg := fun _ => none
  packageNameFromStr := fun s => if s = "qux" then some "qux" else none
  downloadAndBuildMetadata := fun _ =>
    Except.ok { name := "built-dist", version := "1.0", requiresDist := [] }

/-- Like `envStd`, but `/work/project` holds only a `pyproject.toml` whose
sole name-bearing table is `tool.poetry` (`name = baz`). -/
def envPoetry : Env where
  wheelFilenameFromStr := fun _ => Except.error "expected a wheel filename"
  sourceDistParsedNormalized := fun _ => none
  isDir := fun p => p = "/work/project"
  readPkgInfo := fun _ => none
  readPyProject := fun p =>
    if p = "/work/project" then
      some { project := none, tool := some { poetry := some { name := some "baz" } } }
    else none
  readSetupCfg := fun _ => none
  packageNameFromStr := fun _ => none
  downloadAndBuildMetadata := fun _ => Except.error "no build available"

/-- Like `envStd`, but `/work/project` holds only a `setup.cfg` with
section `metadata`, key `name`, value `qux`. -/
def envSetupCfg : Env where
  wheelFilenameFromStr := fun _ => Except.error "expected a wheel filename"
  sourceDistParsedNormalized := fun _ => none
  isDir := fun p => p = "/work/project"
  readPkgInfo := fun _ => none
  readPyProject := fun _ => none
  readSetupCfg := fun p =>
    if p = "/work/project" then some [("metadata", [("name", some "qux")])]
    else none
  packageNameFromStr := fun s => if s = "qux" then some "qux" else none
  downloadAndBuildMetadata := fun _ => Except.error "no build available"

/-- Like `envStd`, but the builder fails. -/
def envBuildFail : Env where
  wheelFilenameFromStr := fun _ => Except.error "expected a wheel filename"
  sourceDistParsedNormalized := fun _ => none
  isDir := fun _ => false
  readPkgInfo := fun _ => none
  readPyProject := fun _ => none
  readSetupCfg := fun _ => none
  packageNameFromStr := fun _ => none
  downloadAndBuildMetadata := fun _ => Except.error "build backend exited with an error"

/-- A remote wheel locator. -/
def urlWheel : VerbatimUrl where
  raw := "https://example.com/anyio-4.3.0-py3-none-any.whl"
  scheme := "https"
  pathExtension := some "whl"
  filename := some "anyio-4.3.0-py3-none-any.whl"
  toFilePath := none

/-- The same wheel behind an `ftp` locator. -/
def urlWheelFtp : VerbatimUrl where
  raw := "ftp://example.com/anyio-4.3.0-py3-none-any.whl"
  scheme := "ftp"
  pathExtension := some "whl"
  filename := some "anyio-4.3.0-py3-none-any.whl"
  toFilePath := none

/-- A non-wheel, non-sdist archive behind an `ftp` locator. -/
def urlZipFtp : VerbatimUrl where
  raw := "ftp://example.com/archive.zip"
  scheme := "ftp"
  pathExtension := some "zip"
  filename := some "archive.zip"
  toFilePath := none

/-- A remote sdist locator. -/
def urlSdist : VerbatimUrl where
  raw := "https://example.com/anyio-4.3.0.tar.gz"
  scheme := "https"
  pathExtension := some "gz"
  filename := some "anyio-4.3.0.tar.gz"
  toFilePath := none

/-- A locator whose filename has a wheel extension but is not a valid
wheel filename. -/
def urlBadWheel : VerbatimUrl where
  raw := "https://example.com/pkg-1.0.whl"
  scheme := "https"
  pathExtension := some "whl"
  filename := some "pkg-1.0.whl"
  toFilePath := none

/-- A local project-directory locator. -/
def urlProjectDir : VerbatimUrl where
  raw := "file:///work/project"
  scheme := "file"
  pathExtension := none
  filename := some "project"
  toFilePath := some "/work/project"

/-- A `file` locator that does not convert to a filesystem path (as for a
file URL with a remote host). -/
def urlFileNoPath : VerbatimUrl where
  raw := "file://remote-host/share/project"
  scheme := "file"
  pathExtension := none
  filename := some "project"
  toFilePath := none

/-- A remote HTTPS archive whose filename parses under neither naming
convention. -/
def urlArchive : VerbatimUrl where
  raw := "https://example.com/archive"
  scheme := "https"
  pathExtension := none
  filename := some "archive"
  toFilePath := none

/-- An unnamed requirement with no extras and no marker over a locator. -/
def plainReq (url : VerbatimUrl) : UnnamedRequirement where
  url := url
  extras := []
  marker := none

/-- An unnamed wheel requirement carrying extras and a marker. -/
def reqWheelExtras : UnnamedRequirement where
  url := urlWheel
  extras := ["trio", "doc"]
  marker := some "python_version >= \"3.8\""

/-- An already-named (PEP 508) requirement, for batch fixtures. -/
def flaskReq : Requirement where
  name := "flask"
  extras := []
  version_or_url := none
  marker := none

/-- A batch holding one named and one unnamed (wheel) requirement. -/
def batchOkInput : List RequirementsTxtRequirement :=
  [RequirementsTxtRequirement.pep508 flaskReq,
   RequirementsTxtRequirement.unnamed (plainReq urlWheel)]

/-- The expected batch output for `batchOkInput` under `envStd`. -/
def batchOkOutput : List Requirement :=
  [flaskReq,
   { name := "anyio", extras := [],
     version_or_url := some (VersionOrUrl.url urlWheel), marker := none }]

/-- A batch whose second element fails wheel-filename parsing. -/
def batchErrInput : List RequirementsTxtRequirement :=
  [RequirementsTxtRequirement.pep508 flaskReq,
   RequirementsTxtRequirement.unnamed (plainReq urlBadWheel)]

/-! ## Helper lemmas -/


/-- Characterization of a successful build fallback. -/
theorem buildFallback_ok (env : Env) (requirement : UnnamedRequirement)
    (source : SourceUrl) (events0 : List Event) (r : Requirement) (events : List Event)
    (h : buildFallback env requirement source events0 = (Outcome.ok r, events)) :
    ∃ metadata,
      env.downloadAndBuildMetadata (BuildableSource.url source) = Except.ok metadata ∧
      r = { name := metadata.name
            extras := requirement.extras
            version_or_url := some (VersionOrUrl.url requirement.url)
            marker := requirement.marker } ∧
      events = events0 ++ [Event.build (BuildableSource.url source)] := by
  unfold buildFallback at h
  split at h
  · simp at h
  · rename_i metadata heq
    simp only [Prod.mk.injEq, Outcome.ok.injEq] at h
    exact ⟨metadata, heq, h.1.symm, h.2.symm⟩

/-- Frame property of `resolveFromSource`: a successful resolution copies
extras and marker and pins the version to the locator URL. -/
theorem resolveFromSource_ok_frame (env : Env) (requirement : UnnamedRequirement)
    (r : Requirement) (events : List Event)
    (h : resolveFromSource env requirement = (Outcome.ok r, events)) :
    r.extras = requirement.extras ∧ r.marker = requirement.marker ∧
      r.version_or_url = some (VersionOrUrl.url requirement.url) := by
  unfold resolveFromSource at h
  split at h
  · split at h
    · simp at h
    · split at h
      · split at h
        · simp only [Prod.mk.injEq, Outcome.ok.injEq] at h
          obtain ⟨hr, -⟩ := h
          subst hr
          exact ⟨rfl, rfl, rfl⟩
        · obtain ⟨m, -, hr, -⟩ := buildFallback_ok _ _ _ _ _ _ h
          subst hr; exact ⟨rfl, rfl, rfl⟩
      · obtain ⟨m, -, hr, -⟩ := buildFallback_ok _ _ _ _ _ _ h
        subst hr; exact ⟨rfl, rfl, rfl⟩
  all_goals first
    | simp at h
    | (obtain ⟨m, -, hr, -⟩ := buildFallback_ok _ _ _ _ _ _ h
       subst hr; exact ⟨rfl, rfl, rfl⟩)

/-- Frame property of `resolveRequirement`. -/
theorem resolveRequirement_ok_frame (env : Env) (requirement : UnnamedRequirement)
    (r : Requirement) (events : List Event)
    (h : resolveRequirement env requirement = (Outcome.ok r, events)) :
    r.extras = requirement.extras ∧ r.marker = requirement.marker ∧
      r.version_or_url = some (VersionOrUrl.url requirement.url) := by
  unfold resolveRequirement at h
  split at h
  · split at h
    · simp at h
    · split at h
      · simp at h
      · simp only [Prod.mk.injEq, Outcome.ok.injEq] at h
        obtain ⟨hr, -⟩ := h
        subst hr
        exact ⟨rfl, rfl, rfl⟩
  · split at h
    · simp only [Prod.mk.injEq, Outcome.ok.injEq] at h
      obtain ⟨hr, -⟩ := h
      subst hr
      exact ⟨rfl, rfl, rfl⟩
    · exact resolveFromSource_ok_frame _ _ _ _ h


/-- When the filename is neither wheel-like nor a parseable sdist name,
resolution continues silently with scheme classification. -/
theorem resolveRequirement_skips_filenames (env : Env) (requirement : UnnamedRequirement)
    (hwhl : requirement.url.pathExtension.any (fun ext => eqIgnoreAsciiCase ext "whl") = false)
    (hsdist : requirement.url.filename.bind env.sourceDistParsedNormalized = none) :
    resolveRequirement env requirement = resolveFromSource env requirement := by
  unfold resolveRequirement
  simp only [hwhl, hsdist, Bool.false_eq_true, if_false]

/-- For a `file`-scheme locator pointing at a directory, resolution is the
static chain, falling back to a build on a miss. -/
theorem resolveFromSource_dir (env : Env) (requirement : UnnamedRequirement) (path : String)
    (hscheme : requirement.url.scheme = "file")
    (hpath : requirement.url.toFilePath = some path)
    (hdir : env.isDir path = true) :
    resolveFromSource env requirement =
      match readDirectoryMetadata env path with
      | (some name, events) =>
          (Outcome.ok
            { name := name
              extras := requirement.extras
              version_or_url := some (VersionOrUrl.url requirement.url)
              marker := requirement.marker },
            events)
      | (none, events) =>
          buildFallback env requirement (SourceUrl.path requirement.url path) events := by
  unfold resolveFromSource
  simp only [hscheme, Scheme.parse, if_pos, hpath, hdir, if_true]

/-- The static-metadata chain never invokes the builder. -/
theorem readDirectoryMetadata_no_build (env : Env) (path : String)
    (found : Option PackageName) (events : List Event)
    (h : readDirectoryMetadata env path = (found, events)) :
    ∀ s, Event.build s ∉ events := by
  unfold readDirectoryMetadata at h
  cases hpi : env.readPkgInfo path with
  | some name =>
    simp only [hpi, Prod.mk.injEq] at h
    obtain ⟨-, hev⟩ := h
    subst hev
    intro s
    simp
  | none =>
    simp only [hpi] at h
    cases hpp : env.readPyProject path with
    | some pyproject =>
      simp only [hpp] at h
      cases hpn : pyprojectName pyproject with
      | some name =>
        simp only [hpn, Prod.mk.injEq] at h
        obtain ⟨-, hev⟩ := h
        subst hev
        intro s
        simp
      | none =>
        simp only [hpn, Prod.mk.injEq] at h
        obtain ⟨-, hev⟩ := h
        subst hev
        intro s
        simp
    | none =>
      simp only [hpp, Prod.mk.injEq] at h
      obtain ⟨-, hev⟩ := h
      subst hev
      intro s
      simp


/-- C2: for an unnamed requirement classified as a local directory path, the
static readers are tried in the fixed order PKG-INFO, then pyproject.toml,
then setup.cfg; the first successful read wins and later readers are never
consulted (the event log records exactly the reads performed), and the
build collaborator is never invoked when any static reader succeeds. -/
theorem claim_C2_static_reader_precedence (env : Env) (requirement : UnnamedRequirement)
    (path : String)
    (hwhl : requirement.url.pathExtension.any (fun ext => eqIgnoreAsciiCase ext "whl") = false)
    (hsdist : requirement.url.filename.bind env.sourceDistParsedNormalized = none)
    (hscheme : requirement.url.scheme = "file")
    (hpath : requirement.url.toFilePath = some path)
    (hdir : env.isDir path = true) :
    (∀ name, env.readPkgInfo path = some name →
      resolveRequirement env requirement =
        (Outcome.ok
          { name := name
            extras := requirement.extras
            version_or_url := some (VersionOrUrl.url requirement.url)
            marker := requirement.marker },
          [Event.readPkgInfo path])) ∧
    (∀ pyproject name, env.readPkgInfo path = none →
      env.readPyProject path = some pyproject → pyprojectName pyproject = some name →
      resolveRequirement env requirement =
        (Outcome.ok
          { name := name
            extras := requirement.extras
            version_or_url := some (VersionOrUrl.url requirement.url)
            marker := requirement.marker },
          [Event.readPkgInfo path, Event.readPyProject path])) ∧
    (∀ name events, readDirectoryMetadata env path = (some name, events) →
      resolveRequirement env requirement =
        (Outcome.ok
          { name := name
            extras := requirement.extras
            version_or_url := some (VersionOrUrl.url requirement.url)
            marker := requirement.marker },
          events) ∧
      ∀ s, Event.build s ∉ events) := by
  have hred :=
    (resolveRequirement_skips_filenames env requirement hwhl hsdist).trans
      (resolveFromSource_dir env requirement path hscheme hpath hdir)
  refine ⟨?_, ?_, ?_⟩
  · intro name hpi
    rw [hred]
    unfold readDirectoryMetadata
    simp only [hpi]
  · intro pyproject name hpi hpp hpn
    rw [hred]
    unfold readDirectoryMetadata
    simp only [hpi, hpp, hpn]
  · intro name events hmeta
    rw [hred, hmeta]
    exact ⟨rfl, readDirectoryMetadata_no_build env path _ _ hmeta⟩

/-- Witness for C2: a directory with both a PKG-INFO naming `foo` and a
pyproject.toml naming `bar` resolves to `foo`, reading only PKG-INFO. -/
theorem claim_C2_static_reader_precedence_witness :
    envStd.readPkgInfo "/work/project" = some "foo" ∧
    envStd.readPyProject "/work/project" =
      some { project := some { name := "bar" }, tool := none } ∧
    resolveRequirement envStd (plainReq urlProjectDir) =
      (Outcome.ok
        { name := "foo"
          extras := []
          version_or_url := some (VersionOrUrl.url urlProjectDir)
          marker := none },
        [Event.readPkgInfo "/work/project"]) :=
  ⟨by decide, by decide,
    (claim_C2_static_reader_precedence envStd (plainReq urlProjectDir) "/work/project"
      (by decide) (by decide) (by decide) (by decide) (by decide)).1 "foo" (by decide)⟩


/-- C6: when reading a directory's pyproject.toml, the project table's
name is checked first; if absent, the nested tool.poetry name is checked;
a missing file, malformed structure (both collapse to a failed read), or
absent fields are non-fatal and fall through to setup.cfg; a pyproject.toml
with only tool.poetry.name resolves to that name. -/
theorem claim_C6_pyproject_reader (env : Env) (requirement : UnnamedRequirement)
    (path : String)
    (hwhl : requirement.url.pathExtension.any (fun ext => eqIgnoreAsciiCase ext "whl") = false)
    (hsdist : requirement.url.filename.bind env.sourceDistParsedNormalized = none)
    (hscheme : requirement.url.scheme = "file")
    (hpath : requirement.url.toFilePath = some path)
    (hdir : env.isDir path = true) :
    (∀ pyproject project, pyproject.project = some project →
      pyprojectName pyproject = some project.name) ∧
    (∀ pyproject poetry name, pyproject.project = none →
      pyproject.tool = some { poetry := some poetry } → poetry.name = some name →
      pyprojectName pyproject = some name) ∧
    (env.readPkgInfo path = none →
      (match env.readPyProject path with
       | some pyproject => pyprojectName pyproject
       | none => none) = none →
      readDirectoryMetadata env path =
        ((match env.readSetupCfg path with
          | some setup_cfg => setupCfgName env setup_cfg
          | none => none),
         [Event.readPkgInfo path, Event.readPyProject path, Event.readSetupCfg path])) ∧
    (∀ name, env.readPkgInfo path = none →
      env.readPyProject path =
        some { project := none, tool := some { poetry := some { name := some name } } } →
      resolveRequirement env requirement =
        (Outcome.ok
          { name := name
            extras := requirement.extras
            version_or_url := some (VersionOrUrl.url requirement.url)
            marker := requirement.marker },
          [Event.readPkgInfo path, Event.readPyProject path])) := by
  have hred :=
    (resolveRequirement_skips_filenames env requirement hwhl hsdist).trans
      (resolveFromSource_dir env requirement path hscheme hpath hdir)
  refine ⟨?_, ?_, ?_, ?_⟩
  · intro pyproject project hp
    unfold pyprojectName
    simp only [hp]
  · intro pyproject poetry name hp ht hn
    unfold pyprojectName
    simp only [hp, ht, hn]
  · intro hpi hpy
    unfold readDirectoryMetadata
    simp only [hpi, hpy]
  · intro name hpi hpp
    rw [hred]
    unfold readDirectoryMetadata
    simp only [hpi, hpp]
    unfold pyprojectName
    simp only []

/-- Witness for C6: only `tool.poetry.name = baz` present resolves to
`baz`. -/
theorem claim_C6_pyproject_reader_witness :
    envPoetry.readPkgInfo "/work/project" = none ∧
    envPoetry.readPyProject "/work/project" =
      some { project := none, tool := some { poetry := some { name := some "baz" } } } ∧
    resolveRequirement envPoetry (plainReq urlProjectDir) =
      (Outcome.ok
        { name := "baz"
          extras := []
          version_or_url := some (VersionOrUrl.url urlProjectDir)
          marker := none },
        [Event.readPkgInfo "/work/project", Event.readPyProject "/work/project"]) :=
  ⟨by decide, by decide,
    (claim_C6_pyproject_reader envPoetry (plainReq urlProjectDir) "/work/project"
      (by decide) (by decide) (by decide) (by decide) (by decide)).2.2.2 "baz"
      (by decide) (by decide)⟩


/-- C7: when reading a directory's setup.cfg (parsed by the collaborator
configured as a case-sensitive, multiline-enabled INI), the value at
section `metadata`, key `name` is validated against the package-name
grammar and on success becomes the resolved name; any read, parse, or
validation failure is non-fatal and resolution falls through to the build
fallback. -/
theorem claim_C7_setup_cfg_reader (env : Env) (requirement : UnnamedRequirement)
    (path : String)
    (hwhl : requirement.url.pathExtension.any (fun ext => eqIgnoreAsciiCase ext "whl") = false)
    (hsdist : requirement.url.filename.bind env.sourceDistParsedNormalized = none)
    (hscheme : requirement.url.scheme = "file")
    (hpath : requirement.url.toFilePath = some path)
    (hdir : env.isDir path = true) :
    (∀ setup_cfg metadataSection v name,
      List.lookup "metadata" setup_cfg = some metadataSection →
      List.lookup "name" metadataSection = some (some v) →
      env.packageNameFromStr v = some name →
      setupCfgName env setup_cfg = some name) ∧
    (∀ setup_cfg metadataSection v,
      List.lookup "metadata" setup_cfg = some metadataSection →
      List.lookup "name" metadataSection = some (some v) →
      env.packageNameFromStr v = none →
      setupCfgName env setup_cfg = none) ∧
    (∀ setup_cfg name, env.readPkgInfo path = none →
      (match env.readPyProject path with
       | some pyproject => pyprojectName pyproject
       | none => none) = none →
      env.readSetupCfg path = some setup_cfg →
      setupCfgName env setup_cfg = some name →
      resolveRequirement env requirement =
        (Outcome.ok
          { name := name
            extras := requirement.extras
            version_or_url := some (VersionOrUrl.url requirement.url)
            marker := requirement.marker },
          [Event.readPkgInfo path, Event.readPyProject path, Event.readSetupCfg path])) ∧
    (env.readPkgInfo path = none →
      (match env.readPyProject path with
       | some pyproject => pyprojectName pyproject
       | none => none) = none →
      (match env.readSetupCfg path with
       | some setup_cfg => setupCfgName env setup_cfg
       | none => none) = none →
      resolveRequirement env requirement =
        buildFallback env requirement (SourceUrl.path requirement.url path)
          [Event.readPkgInfo path, Event.readPyProject path, Event.readSetupCfg path]) := by
  have hred :=
    (resolveRequirement_skips_filenames env requirement hwhl hsdist).trans
      (resolveFromSource_dir env requirement path hscheme hpath hdir)
  refine ⟨?_, ?_, ?_, ?_⟩
  · intro setup_cfg metadataSection v name hm hn hv
    unfold setupCfgName
    simp only [hm, hn, hv]
  · intro setup_cfg metadataSection v hm hn hv
    unfold setupCfgName
    simp only [hm, hn, hv]
  · intro setup_cfg name hpi hpy hsc hname
    rw [hred]
    unfold readDirectoryMetadata
    simp only [hpi, hpy, hsc, hname]
  · intro hpi hpy hsc
    rw [hred]
    unfold readDirectoryMetadata
    simp only [hpi, hpy, hsc]

/-- Witness for C7: a directory with only `setup.cfg` holding
`[metadata] name = qux` resolves to `qux`. -/
theorem claim_C7_setup_cfg_reader_witness :
    envSetupCfg.readSetupCfg "/work/project" =
      some [("metadata", [("name", some "qux")])] ∧
    resolveRequirement envSetupCfg (plainReq urlProjectDir) =
      (Outcome.ok
        { name := "qux"
          extras := []
          version_or_url := some (VersionOrUrl.url urlProjectDir)
          marker := none },
        [Event.readPkgInfo "/work/project", Event.readPyProject "/work/project",
         Event.readSetupCfg "/work/project"]) :=
  ⟨by decide,
    (claim_C7_setup_cfg_reader envSetupCfg (plainReq urlProjectDir) "/work/project"
      (by decide) (by decide) (by decide) (by decide) (by decide)).2.2.1
      [("metadata", [("name", some "qux")])] "qux"
      (by decide) (by decide) (by decide) (by decide)⟩


/-- Counterexample to C4 as stated: an `ftp`-scheme locator whose
filename is a valid wheel filename resolves successfully via the wheel
branch — filename extraction runs before scheme classification, so not
every unsupported-scheme requirement fails. -/
theorem claim_C4_counterexample :
    urlWheelFtp.scheme ∉ (["file", "http", "https", "git+ssh", "git+https"] : List String) ∧
    resolveRequirement envStd (plainReq urlWheelFtp) =
      (Outcome.ok
        { name := "anyio"
          extras := []
          version_or_url := some (VersionOrUrl.url urlWheelFtp)
          marker := none },
        []) :=
  ⟨by decide, by decide⟩

/-- C4 (amended): for every unnamed requirement whose filename-based
extraction does not apply and whose locator scheme is none of file, http,
https, git+ssh, git+https, resolution fails immediately with an
unsupported-scheme error whose message includes the literal locator, with
no directory-metadata attempt and no build (empty event log). -/
theorem claim_C4_unsupported_scheme (env : Env) (requirement : UnnamedRequirement)
    (hwhl : requirement.url.pathExtension.any (fun ext => eqIgnoreAsciiCase ext "whl") = false)
    (hsdist : requirement.url.filename.bind env.sourceDistParsedNormalized = none)
    (hscheme : requirement.url.scheme ∉
      (["file", "http", "https", "git+ssh", "git+https"] : List String)) :
    resolveRequirement env requirement =
      (Outcome.error (ResolveError.unsupportedScheme requirement.url.raw), []) ∧
    (ResolveError.unsupportedScheme requirement.url.raw).message =
      "Unsupported scheme for unnamed requirement: " ++ requirement.url.raw := by
  have hp : Scheme.parse requirement.url.scheme = none := by
    simp only [List.mem_cons, List.not_mem_nil, or_false, not_or] at hscheme
    obtain ⟨h1, h2, h3, h4, h5⟩ := hscheme
    unfold Scheme.parse
    simp [h1, h2, h3, h4, h5]
  rw [resolveRequirement_skips_filenames env requirement hwhl hsdist]
  unfold resolveFromSource
  rw [hp]
  exact ⟨rfl, rfl⟩

/-- Witness for C4 (amended): `ftp://example.com/archive.zip` fails with
the unsupported-scheme error carrying the literal locator. -/
theorem claim_C4_unsupported_scheme_witness :
    urlZipFtp.scheme ∉ (["file", "http", "https", "git+ssh", "git+https"] : List String) ∧
    resolveRequirement envStd (plainReq urlZipFtp) =
      (Outcome.error (ResolveError.unsupportedScheme "ftp://example.com/archive.zip"), []) ∧
    (ResolveError.unsupportedScheme "ftp://example.com/archive.zip").message =
      "Unsupported scheme for unnamed requirement: " ++ "ftp://example.com/archive.zip" :=
  ⟨by decide,
    (claim_C4_unsupported_scheme envStd (plainReq urlZipFtp)
      (by decide) (by decide) (by decide)).1,
    (claim_C4_unsupported_scheme envStd (plainReq urlZipFtp)
      (by decide) (by decide) (by decide)).2⟩

/-- C10: a `file`-scheme locator whose URL does not convert to a local
filesystem path makes per-requirement resolution panic (the `.expect`),
rather than return an error result. -/
theorem claim_C10_file_path_panic (env : Env) (requirement : UnnamedRequirement)
    (hwhl : requirement.url.pathExtension.any (fun ext => eqIgnoreAsciiCase ext "whl") = false)
    (hsdist : requirement.url.filename.bind env.sourceDistParsedNormalized = none)
    (hscheme : requirement.url.scheme = "file")
    (hpath : requirement.url.toFilePath = none) :
    resolveRequirement env requirement = (Outcome.panicked "URL to be a file path", []) ∧
    ∀ e events, resolveRequirement env requirement ≠ (Outcome.error e, events) := by
  have heq : resolveRequirement env requirement =
      (Outcome.panicked "URL to be a file path", []) := by
    rw [resolveRequirement_skips_filenames env requirement hwhl hsdist]
    unfold resolveFromSource
    simp only [hscheme, Scheme.parse, if_pos, hpath]
  refine ⟨heq, ?_⟩
  intro e events hcontra
  rw [heq] at hcontra
  simp at hcontra

/-- Witness for C10: a file URL with a remote host (no filesystem path)
panics with the `.expect` message. -/
theorem claim_C10_file_path_panic_witness :
    urlFileNoPath.scheme = "file" ∧ urlFileNoPath.toFilePath = none ∧
    resolveRequirement envStd (plainReq urlFileNoPath) =
      (Outcome.panicked "URL to be a file path", []) :=
  ⟨by decide, by decide,
    (claim_C10_file_path_panic envStd (plainReq urlFileNoPath)
      (by decide) (by decide) (by decide) (by decide)).1⟩


/-- C3: filename-based extraction is attempted first: a wheel-extension
filename is parsed under the strict wheel grammar, succeeding with the
parsed name and no reads or build, while a parse failure or missing
filename is fatal with no fallback; otherwise an sdist-parseable filename
resolves with the build skipped, and an sdist miss silently continues to
classification. -/
theorem claim_C3_filename_extraction (env : Env) (requirement : UnnamedRequirement) :
    (∀ fname name,
      requirement.url.pathExtension.any (fun ext => eqIgnoreAsciiCase ext "whl") = true →
      requirement.url.filename = some fname →
      env.wheelFilenameFromStr fname = Except.ok name →
      resolveRequirement env requirement =
        (Outcome.ok
          { name := name
            extras := requirement.extras
            version_or_url := some (VersionOrUrl.url requirement.url)
            marker := requirement.marker },
          [])) ∧
    (∀ fname e,
      requirement.url.pathExtension.any (fun ext => eqIgnoreAsciiCase ext "whl") = true →
      requirement.url.filename = some fname →
      env.wheelFilenameFromStr fname = Except.error e →
      resolveRequirement env requirement = (Outcome.error (ResolveError.wheel e), [])) ∧
    (requirement.url.pathExtension.any (fun ext => eqIgnoreAsciiCase ext "whl") = true →
      requirement.url.filename = none →
      resolveRequirement env requirement =
        (Outcome.error (ResolveError.filename requirement.url.raw), [])) ∧
    (∀ name,
      requirement.url.pathExtension.any (fun ext => eqIgnoreAsciiCase ext "whl") = false →
      requirement.url.filename.bind env.sourceDistParsedNormalized = some name →
      resolveRequirement env requirement =
        (Outcome.ok
          { name := name
            extras := requirement.extras
            version_or_url := some (VersionOrUrl.url requirement.url)
            marker := requirement.marker },
          [])) ∧
    (requirement.url.pathExtension.any (fun ext => eqIgnoreAsciiCase ext "whl") = false →
      requirement.url.filename.bind env.sourceDistParsedNormalized = none →
      resolveRequirement env requirement = resolveFromSource env requirement) := by
  refine ⟨?_, ?_, ?_, ?_, ?_⟩
  · intro fname name hwhl hf hparse
    unfold resolveRequirement
    simp only [hwhl, if_true, hf, hparse]
  · intro fname e hwhl hf hparse
    unfold resolveRequirement
    simp only [hwhl, if_true, hf, hparse]
  · intro hwhl hf
    unfold resolveRequirement
    simp only [hwhl, if_true, hf]
  · intro name hwhl hsdist
    unfold resolveRequirement
    simp only [hwhl, Bool.false_eq_true, if_false, hsdist]
  · intro hwhl hsdist
    exact resolveRequirement_skips_filenames env requirement hwhl hsdist

/-- Witness for C3: the four filename cases at concrete locators. -/
theorem claim_C3_filename_extraction_witness :
    resolveRequirement envStd (plainReq urlWheel) =
      (Outcome.ok
        { name := "anyio"
          extras := []
          version_or_url := some (VersionOrUrl.url urlWheel)
          marker := none },
        []) ∧
    resolveRequirement envStd (plainReq urlBadWheel) =
      (Outcome.error (ResolveError.wheel "expected a wheel filename"), []) ∧
    resolveRequirement envStd (plainReq urlSdist) =
      (Outcome.ok
        { name := "anyio"
          extras := []
          version_or_url := some (VersionOrUrl.url urlSdist)
          marker := none },
        []) ∧
    resolveRequirement envStd (plainReq urlArchive) =
      resolveFromSource envStd (plainReq urlArchive) :=
  ⟨(claim_C3_filename_extraction envStd (plainReq urlWheel)).1
      "anyio-4.3.0-py3-none-any.whl" "anyio" (by decide) (by decide) rfl,
   (claim_C3_filename_extraction envStd (plainReq urlBadWheel)).2.1
      "pkg-1.0.whl" "expected a wheel filename" (by decide) (by decide) rfl,
   (claim_C3_filename_extraction envStd (plainReq urlSdist)).2.2.2.1
      "anyio" (by decide) (by decide),
   (claim_C3_filename_extraction envStd (plainReq urlArchive)).2.2.2.2
      (by decide) (by decide)⟩


theorem countP_isBuild_eq_zero (events : List Event)
    (h : ∀ s, Event.build s ∉ events) : events.countP Event.isBuild = 0 := by
  rw [List.countP_eq_zero]
  intro a ha
  cases a
  case build s => exact absurd ha (h s)
  all_goals simp [Event.isBuild]

theorem buildFallback_events (env : Env) (requirement : UnnamedRequirement)
    (source : SourceUrl) (events0 : List Event) :
    (buildFallback env requirement source events0).2 =
      events0 ++ [Event.build (BuildableSource.url source)] := by
  unfold buildFallback
  split <;> rfl

theorem resolveRequirement_wheel_snd (env : Env) (requirement : UnnamedRequirement)
    (hwhl : requirement.url.pathExtension.any (fun ext => eqIgnoreAsciiCase ext "whl") = true) :
    (resolveRequirement env requirement).2 = [] := by
  unfold resolveRequirement
  simp only [hwhl, if_true]
  split
  · rfl
  · split <;> rfl

theorem resolveRequirement_build_inversion (env : Env) (requirement : UnnamedRequirement)
    (out : Outcome ResolveError Requirement) (events : List Event)
    (h : resolveRequirement env requirement = (out, events)) :
    events.countP Event.isBuild ≤ 1 ∧
    ∀ s, Event.build s ∈ events →
      requirement.url.pathExtension.any (fun ext => eqIgnoreAsciiCase ext "whl") = false ∧
      requirement.url.filename.bind env.sourceDistParsedNormalized = none ∧
      Scheme.parse requirement.url.scheme ≠ none ∧
      ∀ path, Scheme.parse requirement.url.scheme = some Scheme.file →
        requirement.url.toFilePath = some path → env.isDir path = true →
        (readDirectoryMetadata env path).1 = none := by
  cases hwhl : requirement.url.pathExtension.any (fun ext => eqIgnoreAsciiCase ext "whl") with
  | true =>
    have hev : events = [] :=
      (congrArg Prod.snd h).symm.trans (resolveRequirement_wheel_snd env requirement hwhl)
    subst hev
    exact ⟨by simp, fun s hs => absurd hs (by simp)⟩
  | false =>
    cases hsdist : requirement.url.filename.bind env.sourceDistParsedNormalized with
    | some name =>
      have heq : resolveRequirement env requirement =
          (Outcome.ok
            { name := name
              extras := requirement.extras
              version_or_url := some (VersionOrUrl.url requirement.url)
              marker := requirement.marker },
            []) := by
        unfold resolveRequirement
        simp only [hwhl, Bool.false_eq_true, if_false, hsdist]
      rw [heq] at h
      have hev : events = [] := (congrArg Prod.snd h).symm
      subst hev
      exact ⟨by simp, fun s hs => absurd hs (by simp)⟩
    | none =>
      rw [resolveRequirement_skips_filenames env requirement hwhl hsdist] at h
      cases hscheme : Scheme.parse requirement.url.scheme with
      | none =>
        have heq : resolveFromSource env requirement =
            (Outcome.error (ResolveError.unsupportedScheme requirement.url.raw), []) := by
          unfold resolveFromSource
          simp only [hscheme]
        rw [heq] at h
        have hev : events = [] := (congrArg Prod.snd h).symm
        subst hev
        exact ⟨by simp, fun s hs => absurd hs (by simp)⟩
      | some sch =>
        cases sch with
        | file =>
          cases hfp : requirement.url.toFilePath with
          | none =>
            have heq : resolveFromSource env requirement =
                (Outcome.panicked "URL to be a file path", []) := by
              unfold resolveFromSource
              simp only [hscheme, hfp]
            rw [heq] at h
            have hev : events = [] := (congrArg Prod.snd h).symm
            subst hev
            exact ⟨by simp, fun s hs => absurd hs (by simp)⟩
          | some path =>
            cases hdir : env.isDir path with
            | false =>
              have heq : resolveFromSource env requirement =
                  buildFallback env requirement (SourceUrl.path requirement.url path) [] := by
                unfold resolveFromSource
                simp only [hscheme, hfp, hdir, Bool.false_eq_true, if_false]
              rw [heq] at h
              have hev : events = [] ++ [Event.build (BuildableSource.url
                  (SourceUrl.path requirement.url path))] :=
                (congrArg Prod.snd h).symm.trans (buildFallback_events env requirement _ _)
              subst hev
              refine ⟨by simp [Event.isBuild], fun s hs => ⟨rfl, rfl, by simp, ?_⟩⟩
              intro path2 hsch2 hfp2 hdir2
              obtain rfl := Option.some.inj hfp2
              simp [hdir] at hdir2
            | true =>
              cases hmeta : readDirectoryMetadata env path with
              | mk found evs =>
                cases found with
                | some name =>
                  have heq : resolveFromSource env requirement =
                      (Outcome.ok
                        { name := name
                          extras := requirement.extras
                          version_or_url := some (VersionOrUrl.url requirement.url)
                          marker := requirement.marker },
                        evs) := by
                    unfold resolveFromSource
                    simp only [hscheme, hfp, hdir, if_true, hmeta]
                  rw [heq] at h
                  have hev : events = evs := (congrArg Prod.snd h).symm
                  subst hev
                  have hnb := readDirectoryMetadata_no_build env path _ _ hmeta
                  exact ⟨by simp [countP_isBuild_eq_zero events hnb],
                    fun s hs => absurd hs (hnb s)⟩
                | none =>
                  have heq : resolveFromSource env requirement =
                      buildFallback env requirement (SourceUrl.path requirement.url path)
                        evs := by
                    unfold resolveFromSource
                    simp only [hscheme, hfp, hdir, if_true, hmeta]
                  rw [heq] at h
                  have hev : events = evs ++ [Event.build (BuildableSource.url
                      (SourceUrl.path requirement.url path))] :=
                    (congrArg Prod.snd h).symm.trans
                      (buildFallback_events env requirement _ _)
                  subst hev
                  have hnb := readDirectoryMetadata_no_build env path _ _ hmeta
                  constructor
                  · rw [List.countP_append, countP_isBuild_eq_zero evs hnb]
                    simp [Event.isBuild]
                  · refine fun s hs => ⟨rfl, rfl, by simp, ?_⟩
                    intro path2 hsch2 hfp2 hdir2
                    obtain rfl := Option.some.inj hfp2
                    rw [hmeta]
        | http =>
          have heq : resolveFromSource env requirement =
              buildFallback env requirement (SourceUrl.direct requirement.url) [] := by
            unfold resolveFromSource
            simp only [hscheme]
          rw [heq] at h
          have hev : events = [] ++ [Event.build (BuildableSource.url
              (SourceUrl.direct requirement.url))] :=
            (congrArg Prod.snd h).symm.trans (buildFallback_events env requirement _ _)
          subst hev
          refine ⟨by simp [Event.isBuild], fun s hs => ⟨rfl, rfl, by simp, ?_⟩⟩
          intro path2 hsch2 hfp2 hdir2
          simp at hsch2
        | https =>
          have heq : resolveFromSource env requirement =
              buildFallback env requirement (SourceUrl.direct requirement.url) [] := by
            unfold resolveFromSource
            simp only [hscheme]
          rw [heq] at h
          have hev : events = [] ++ [Event.build (BuildableSource.url
              (SourceUrl.direct requirement.url))] :=
            (congrArg Prod.snd h).symm.trans (buildFallback_events env requirement _ _)
          subst hev
          refine ⟨by simp [Event.isBuild], fun s hs => ⟨rfl, rfl, by simp, ?_⟩⟩
          intro path2 hsch2 hfp2 hdir2
          simp at hsch2
        | gitSsh =>
          have heq : resolveFromSource env requirement =
              buildFallback env requirement (SourceUrl.git requirement.url) [] := by
            unfold resolveFromSource
            simp only [hscheme]
          rw [heq] at h
          have hev : events = [] ++ [Event.build (BuildableSource.url
              (SourceUrl.git requirement.url))] :=
            (congrArg Prod.snd h).symm.trans (buildFallback_events env requirement _ _)
          subst hev
          refine ⟨by simp [Event.isBuild], fun s hs => ⟨rfl, rfl, by simp, ?_⟩⟩
          intro path2 hsch2 hfp2 hdir2
          simp at hsch2
        | gitHttps =>
          have heq : resolveFromSource env requirement =
              buildFallback env requirement (SourceUrl.git requirement.url) [] := by
            unfold resolveFromSource
            simp only [hscheme]
          rw [heq] at h
          have hev : events = [] ++ [Event.build (BuildableSource.url
              (SourceUrl.git requirement.url))] :=
            (congrArg Prod.snd h).symm.trans (buildFallback_events env requirement _ _)
          subst hev
          refine ⟨by simp [Event.isBuild], fun s hs => ⟨rfl, rfl, by simp, ?_⟩⟩
          intro path2 hsch2 hfp2 hdir2
          simp at hsch2


/-- C5: the build fallback is invoked exactly when every filename-based
and (for directory paths) static-metadata strategy failed for a
supported-scheme requirement; on success the resolved name is the returned
metadata's name (other metadata discarded), and on failure the resolution
fails with the build error wrapped in the contextual message, original
cause preserved.  The last conjunct is the converse: a build event implies
all earlier strategies failed, and at most one build ever happens. -/
theorem claim_C5_build_fallback (env : Env) (requirement : UnnamedRequirement) :
    (∀ source events0 metadata,
      env.downloadAndBuildMetadata (BuildableSource.url source) = Except.ok metadata →
      buildFallback env requirement source events0 =
        (Outcome.ok
          { name := metadata.name
            extras := requirement.extras
            version_or_url := some (VersionOrUrl.url requirement.url)
            marker := requirement.marker },
          events0 ++ [Event.build (BuildableSource.url source)])) ∧
    (∀ source events0 e,
      env.downloadAndBuildMetadata (BuildableSource.url source) = Except.error e →
      buildFallback env requirement source events0 =
        (Outcome.error (ResolveError.build e),
          events0 ++ [Event.build (BuildableSource.url source)]) ∧
      (ResolveError.build e).message = "Failed to build source distribution" ∧
      (ResolveError.build e).causeOf = some e) ∧
    (requirement.url.pathExtension.any (fun ext => eqIgnoreAsciiCase ext "whl") = false →
      requirement.url.filename.bind env.sourceDistParsedNormalized = none →
      ((requirement.url.scheme = "http" ∨ requirement.url.scheme = "https") →
        resolveRequirement env requirement =
          buildFallback env requirement (SourceUrl.direct requirement.url) []) ∧
      ((requirement.url.scheme = "git+ssh" ∨ requirement.url.scheme = "git+https") →
        resolveRequirement env requirement =
          buildFallback env requirement (SourceUrl.git requirement.url) []) ∧
      (∀ path, requirement.url.scheme = "file" → requirement.url.toFilePath = some path →
        env.isDir path = false →
        resolveRequirement env requirement =
          buildFallback env requirement (SourceUrl.path requirement.url path) []) ∧
      (∀ path events, requirement.url.scheme = "file" →
        requirement.url.toFilePath = some path →
        env.isDir path = true → readDirectoryMetadata env path = (none, events) →
        resolveRequirement env requirement =
          buildFallback env requirement (SourceUrl.path requirement.url path) events)) ∧
    (∀ out events, resolveRequirement env requirement = (out, events) →
      events.countP Event.isBuild ≤ 1 ∧
      ∀ s, Event.build s ∈ events →
        requirement.url.pathExtension.any (fun ext => eqIgnoreAsciiCase ext "whl") = false ∧
        requirement.url.filename.bind env.sourceDistParsedNormalized = none ∧
        Scheme.parse requirement.url.scheme ≠ none ∧
        ∀ path, Scheme.parse requirement.url.scheme = some Scheme.file →
          requirement.url.toFilePath = some path → env.isDir path = true →
          (readDirectoryMetadata env path).1 = none) := by
  refine ⟨?_, ?_, ?_, ?_⟩
  · intro source events0 metadata hb
    unfold buildFallback
    simp only [hb]
  · intro source events0 e hb
    refine ⟨?_, rfl, rfl⟩
    unfold buildFallback
    simp only [hb]
  · intro hwhl hsdist
    rw [resolveRequirement_skips_filenames env requirement hwhl hsdist]
    refine ⟨?_, ?_, ?_, ?_⟩
    · rintro (h | h) <;>
      · unfold resolveFromSource
        simp [Scheme.parse, h]
    · rintro (h | h) <;>
      · unfold resolveFromSource
        simp [Scheme.parse, h]
    · intro path hscheme hfp hdir
      unfold resolveFromSource
      simp only [hscheme, Scheme.parse, if_pos, hfp, hdir, Bool.false_eq_true, if_false]
    · intro path events hscheme hfp hdir hmeta
      unfold resolveFromSource
      simp only [hscheme, Scheme.parse, if_pos, hfp, hdir, if_true, hmeta]
  · exact fun out events h => resolveRequirement_build_inversion env requirement out events h

/-- Witness for C5: an HTTPS archive with an unparseable filename builds
once, resolving to the built metadata's name; under a failing builder the
resolution fails with the wrapped build error. -/
theorem claim_C5_build_fallback_witness :
    resolveRequirement envStd (plainReq urlArchive) =
      (Outcome.ok
        { name := "built-dist"
          extras := []
          version_or_url := some (VersionOrUrl.url urlArchive)
          marker := none },
        [Event.build (BuildableSource.url (SourceUrl.direct urlArchive))]) ∧
    resolveRequirement envBuildFail (plainReq urlArchive) =
      (Outcome.error (ResolveError.build "build backend exited with an error"),
        [Event.build (BuildableSource.url (SourceUrl.direct urlArchive))]) ∧
    (ResolveError.build "build backend exited with an error").message =
      "Failed to build source distribution" ∧
    (ResolveError.build "build backend exited with an error").causeOf =
      some "build backend exited with an error" := by
  have h1 := claim_C5_build_fallback envStd (plainReq urlArchive)
  have h2 := claim_C5_build_fallback envBuildFail (plainReq urlArchive)
  have e1 := (h1.2.2.1 (by decide) (by decide)).1 (Or.inr (by decide))
  have e2 := (h2.2.2.1 (by decide) (by decide)).1 (Or.inr (by decide))
  have b1 := h1.1 (SourceUrl.direct urlArchive) []
      { name := "built-dist", version := "1.0", requiresDist := [] } rfl
  have b2 := h2.2.1 (SourceUrl.direct urlArchive) [] "build backend exited with an error" rfl
  exact ⟨e1.trans b1, e2.trans b2.1, b2.2.1, b2.2.2⟩


/-- C8: every successfully resolved requirement copies extras and marker
verbatim from the input and pins its version-or-URL field to the literal
locator URL (never an inferred version). -/
theorem claim_C8_output_frame (env : Env) (requirement : UnnamedRequirement)
    (r : Requirement) (events : List Event)
    (h : resolveRequirement env requirement = (Outcome.ok r, events)) :
    r.extras = requirement.extras ∧ r.marker = requirement.marker ∧
      r.version_or_url = some (VersionOrUrl.url requirement.url) :=
  resolveRequirement_ok_frame env requirement r events h

/-- Witness for C8: a wheel requirement with extras and a marker keeps
both verbatim and carries the locator URL. -/
theorem claim_C8_output_frame_witness :
    resolveRequirement envStd reqWheelExtras =
      (Outcome.ok
        { name := "anyio"
          extras := ["trio", "doc"]
          version_or_url := some (VersionOrUrl.url urlWheel)
          marker := some "python_version >= \"3.8\"" },
        []) ∧
    (["trio", "doc"] : List String) = reqWheelExtras.extras ∧
    (some "python_version >= \"3.8\"" : Option String) = reqWheelExtras.marker ∧
    (some (VersionOrUrl.url urlWheel) : Option VersionOrUrl) =
      some (VersionOrUrl.url reqWheelExtras.url) := by
  have hres : resolveRequirement envStd reqWheelExtras =
      (Outcome.ok
        { name := "anyio"
          extras := ["trio", "doc"]
          version_or_url := some (VersionOrUrl.url urlWheel)
          marker := some "python_version >= \"3.8\"" },
        []) := by decide
  have h := claim_C8_output_frame envStd reqWheelExtras _ _ hres
  exact ⟨hres, h.1, h.2.1, h.2.2⟩


theorem resolve_ok_spec (env : Env) (reqs : List RequirementsTxtRequirement)
    (out : List Requirement) (h : (resolve env reqs).1 = Outcome.ok out) :
    out.length = reqs.length ∧
    (∀ (i : Nat) (r : Requirement),
      reqs[i]? = some (RequirementsTxtRequirement.pep508 r) → out[i]? = some r) ∧
    (∀ (i : Nat) (u : UnnamedRequirement),
      reqs[i]? = some (RequirementsTxtRequirement.unnamed u) →
      ∃ r, out[i]? = some r ∧ (resolveRequirement env u).1 = Outcome.ok r) := by
  induction reqs generalizing out with
  | nil =>
    simp only [resolve] at h
    have hout : out = [] := (Outcome.ok.inj h).symm
    subst hout
    refine ⟨rfl, ?_, ?_⟩
    · intro i r hi
      simp at hi
    · intro i u hi
      simp at hi
  | cons req rest ih =>
    cases hro : resolveOne env req with
    | mk o ev =>
      cases o with
      | ok r =>
        cases hrest : resolve env rest with
        | mk o2 ev2 =>
          cases o2 with
          | ok rs =>
            have heq : resolve env (req :: rest) = (Outcome.ok (r :: rs), ev ++ ev2) := by
              simp only [resolve, hro, hrest]
            rw [heq] at h
            have hout : out = r :: rs := (Outcome.ok.inj h).symm
            subst hout
            obtain ⟨ihlen, ihnamed, ihunnamed⟩ := ih rs (by rw [hrest])
            refine ⟨by simp [ihlen], ?_, ?_⟩
            · intro i r0 hi
              cases i with
              | zero =>
                simp only [List.getElem?_cons_zero, Option.some.injEq] at hi
                subst hi
                have hr : (Outcome.ok r0 : Outcome ResolveError Requirement) = Outcome.ok r := by
                  simpa only [resolveOne] using congrArg Prod.fst hro
                obtain rfl := Outcome.ok.inj hr
                simp
              | succ n =>
                simp only [List.getElem?_cons_succ] at hi ⊢
                exact ihnamed n r0 hi
            · intro i u hi
              cases i with
              | zero =>
                simp only [List.getElem?_cons_zero, Option.some.injEq] at hi
                subst hi
                have hres : resolveRequirement env u = (Outcome.ok r, ev) := by
                  simpa only [resolveOne] using hro
                exact ⟨r, by simp, by rw [hres]⟩
              | succ n =>
                simp only [List.getElem?_cons_succ] at hi ⊢
                exact ihunnamed n u hi
          | error e2 =>
            have heq : resolve env (req :: rest) = (Outcome.error e2, ev ++ ev2) := by
              simp only [resolve, hro, hrest]
            rw [heq] at h
            simp at h
          | panicked m =>
            have heq : resolve env (req :: rest) = (Outcome.panicked m, ev ++ ev2) := by
              simp only [resolve, hro, hrest]
            rw [heq] at h
            simp at h
      | error e0 =>
        have heq : resolve env (req :: rest) = (Outcome.error e0, ev) := by
          simp only [resolve, hro]
        rw [heq] at h
        simp at h
      | panicked m =>
        have heq : resolve env (req :: rest) = (Outcome.panicked m, ev) := by
          simp only [resolve, hro]
        rw [heq] at h
        simp at h


theorem resolve_error_spec (env : Env) (reqs : List RequirementsTxtRequirement)
    (e : ResolveError) (h : (resolve env reqs).1 = Outcome.error e) :
    ∃ (i : Nat) (u : UnnamedRequirement),
      reqs[i]? = some (RequirementsTxtRequirement.unnamed u) ∧
      (resolveRequirement env u).1 = Outcome.error e ∧
      ∀ j, j < i → ∃ req0 r, reqs[j]? = some req0 ∧
        (resolveOne env req0).1 = Outcome.ok r := by
  induction reqs with
  | nil => simp [resolve] at h
  | cons req rest ih =>
    cases hro : resolveOne env req with
    | mk o ev =>
      cases o with
      | ok r =>
        cases hrest : resolve env rest with
        | mk o2 ev2 =>
          cases o2 with
          | ok rs =>
            have heq : resolve env (req :: rest) = (Outcome.ok (r :: rs), ev ++ ev2) := by
              simp only [resolve, hro, hrest]
            rw [heq] at h
            simp at h
          | error e2 =>
            have heq : resolve env (req :: rest) = (Outcome.error e2, ev ++ ev2) := by
              simp only [resolve, hro, hrest]
            rw [heq] at h
            obtain rfl : e2 = e := Outcome.error.inj h
            obtain ⟨i, u, hi, hu, hpred⟩ := ih (by rw [hrest])
            refine ⟨i + 1, u, by simpa using hi, hu, ?_⟩
            intro j hj
            cases j with
            | zero => exact ⟨req, r, by simp, by rw [hro]⟩
            | succ n =>
              obtain ⟨req0, r0, hr0, hok⟩ := hpred n (by omega)
              exact ⟨req0, r0, by simpa using hr0, hok⟩
          | panicked m =>
            have heq : resolve env (req :: rest) = (Outcome.panicked m, ev ++ ev2) := by
              simp only [resolve, hro, hrest]
            rw [heq] at h
            simp at h
      | error e0 =>
        have heq : resolve env (req :: rest) = (Outcome.error e0, ev) := by
          simp only [resolve, hro]
        rw [heq] at h
        obtain rfl : e0 = e := Outcome.error.inj h
        cases req with
        | pep508 r =>
          simp only [resolveOne] at hro
          simp at hro
        | unnamed u =>
          simp only [resolveOne] at hro
          refine ⟨0, u, by simp, by rw [hro], ?_⟩
          intro j hj
          omega
      | panicked m =>
        have heq : resolve env (req :: rest) = (Outcome.panicked m, ev) := by
          simp only [resolve, hro]
        rw [heq] at h
        simp at h


/-- C1: the batch resolve is positionally 1:1 with its input — on
success the output has the input's length, named records pass through
unchanged at their positions, unnamed records are replaced in place by
their per-requirement resolution; on failure the batch returns the first
(in input order) per-requirement error, all earlier records having
resolved, and no partial result list. -/
theorem claim_C1_batch_order (env : Env) (reqs : List RequirementsTxtRequirement) :
    (∀ out, (resolve env reqs).1 = Outcome.ok out →
      out.length = reqs.length ∧
      (∀ (i : Nat) (r : Requirement),
        reqs[i]? = some (RequirementsTxtRequirement.pep508 r) → out[i]? = some r) ∧
      (∀ (i : Nat) (u : UnnamedRequirement),
        reqs[i]? = some (RequirementsTxtRequirement.unnamed u) →
        ∃ r, out[i]? = some r ∧ (resolveRequirement env u).1 = Outcome.ok r)) ∧
    (∀ e, (resolve env reqs).1 = Outcome.error e →
      (∀ out events, resolve env reqs ≠ (Outcome.ok out, events)) ∧
      ∃ (i : Nat) (u : UnnamedRequirement),
        reqs[i]? = some (RequirementsTxtRequirement.unnamed u) ∧
        (resolveRequirement env u).1 = Outcome.error e ∧
        ∀ j, j < i → ∃ req0 r, reqs[j]? = some req0 ∧
          (resolveOne env req0).1 = Outcome.ok r) :=
  ⟨fun out h => resolve_ok_spec env reqs out h,
   fun e h =>
    ⟨fun out events hc => by rw [hc] at h; simp at h,
     resolve_error_spec env reqs e h⟩⟩

/-- Witness for C1: a two-element batch resolves in order; a batch with
a malformed wheel fails with that requirement's error while the earlier
record resolved. -/
theorem claim_C1_batch_order_witness :
    batchOkOutput.length = batchOkInput.length ∧
    (∃ (i : Nat) (u : UnnamedRequirement),
      batchErrInput[i]? = some (RequirementsTxtRequirement.unnamed u) ∧
      (resolveRequirement envStd u).1 =
        Outcome.error (ResolveError.wheel "expected a wheel filename") ∧
      ∀ j, j < i → ∃ req0 r, batchErrInput[j]? = some req0 ∧
        (resolveOne envStd req0).1 = Outcome.ok r) := by
  have hok := (claim_C1_batch_order envStd batchOkInput).1 batchOkOutput (by decide)
  have herr := (claim_C1_batch_order envStd batchErrInput).2
      (ResolveError.wheel "expected a wheel filename") (by decide)
  exact ⟨hok.1, herr.2⟩

end UvRequirements
